import Mathlib

/-!
Shallow embedding of `MainOpaquePass3dNode::run` from
`crates/bevy_core_pipeline/src/core_3d/main_opaque_pass_3d_node.rs`.

The node is modelled as a pure function from its per-view query item and the
world resources it reads to the sequence of commands it records on the render
pass, paired with its `Result<(), NodeRunError>` return value.  GPU-side
handles (texture views, bind groups, compiled pipelines, draw items, colors,
the f32 depth clear value, viewports) are opaque to the node, so they are
represented by `Nat` stand-ins; the node never inspects them, it only moves
them around.
-/

/-- Opaque stand-in for a color value (`Color` / `wgpu::Color`). -/
abbrev Color := Nat

/-- Opaque stand-in for the f32 depth clear value; the node treats it as an
opaque parameter and never computes with it. -/
abbrev DepthValue := Nat

/-- Opaque stand-in for a draw item of a render phase. -/
abbrev DrawItem := Nat

/-- Opaque stand-in for a GPU bind group. -/
abbrev BindGroup := Nat

/-- Opaque stand-in for a texture view handle. -/
abbrev TextureView := Nat

/-- Opaque stand-in for a viewport rectangle. -/
abbrev Viewport := Nat

/-- `ClearColorConfig` from `bevy_core_pipeline::clear_color`. -/
inductive ClearColorConfig where
  | default
  | custom (color : Color)
  | none
  deriving DecidableEq, Repr

/-- The `ClearColor` world resource (a newtype around a color). -/
structure ClearColor where
  color : Color
  deriving DecidableEq, Repr

/-- `wgpu::LoadOp<V>`. -/
inductive LoadOp (α : Type) where
  | clear (value : α)
  | load
  deriving DecidableEq, Repr

/-- `wgpu::StoreOp`. -/
inductive StoreOp where
  | store
  | discard
  deriving DecidableEq, Repr

/-- `wgpu::Operations<V>`. -/
structure Operations (α : Type) where
  load : LoadOp α
  store : StoreOp
  deriving DecidableEq, Repr

/-- `Camera3dDepthLoadOp` from `core_3d`: clear to a given value, or load. -/
inductive Camera3dDepthLoadOp where
  | clear (value : DepthValue)
  | load
  deriving DecidableEq, Repr

/-- The `From<Camera3dDepthLoadOp> for LoadOp<f32>` conversion applied by
`.into()` in the source: it maps each variant to the same-shaped variant. -/
def Camera3dDepthLoadOp.into : Camera3dDepthLoadOp → LoadOp DepthValue
  | Camera3dDepthLoadOp.clear v => LoadOp.clear v
  | Camera3dDepthLoadOp.load => LoadOp.load

/-- The fields of the `Camera3d` component read by this node. -/
structure Camera3d where
  clear_color : ClearColorConfig
  depth_load_op : Camera3dDepthLoadOp
  deriving DecidableEq, Repr

/-- The field of `ExtractedCamera` read by this node. -/
structure ExtractedCamera where
  viewport : Option Viewport
  deriving DecidableEq, Repr

/-- `RenderPhase<I>`: an ordered list of draw items, consumed in order. -/
structure RenderPhase where
  items : List DrawItem
  deriving DecidableEq, Repr

/-- `SkyboxPipelineId`: a cached render pipeline id for the skybox. -/
structure SkyboxPipelineId where
  id : Nat
  deriving DecidableEq, Repr

/-- `SkyboxBindGroup`: the skybox bind group for this view. -/
structure SkyboxBindGroup where
  bind_group : BindGroup
  deriving DecidableEq, Repr

/-- `ViewUniformOffset`: the view's dynamic uniform offset. -/
structure ViewUniformOffset where
  offset : Nat
  deriving DecidableEq, Repr

/-- `ViewTarget`: the color target of the view. -/
structure ViewTarget where
  view : TextureView
  deriving DecidableEq, Repr

/-- `ViewDepthTexture`: the depth target of the view. -/
structure ViewDepthTexture where
  view : TextureView
  deriving DecidableEq, Repr

/-- A compiled render pipeline returned by the pipeline cache. -/
structure RenderPipeline where
  id : Nat
  deriving DecidableEq, Repr

/-- The `PipelineCache` world resource: a readiness lookup from cached
pipeline ids to compiled pipelines (`get_render_pipeline`). -/
structure PipelineCache where
  get_render_pipeline : Nat → Option RenderPipeline

/-- The world resources read by the node: `ClearColor` and `PipelineCache`. -/
structure World where
  clear_color : ClearColor
  pipeline_cache : PipelineCache

/-- A color attachment as produced by `ViewTarget::get_color_attachment`. -/
structure ColorAttachment where
  view : TextureView
  ops : Operations Color
  deriving DecidableEq, Repr

/-- `ViewTarget::get_color_attachment`. -/
def ViewTarget.get_color_attachment (t : ViewTarget) (ops : Operations Color) :
    ColorAttachment :=
  { view := t.view, ops := ops }

/-- `RenderPassDepthStencilAttachment`. -/
structure RenderPassDepthStencilAttachment where
  view : TextureView
  depth_ops : Option (Operations DepthValue)
  stencil_ops : Option (Operations Nat)
  deriving DecidableEq, Repr

/-- `RenderPassDescriptor` (the fields set by this node). -/
structure RenderPassDescriptor where
  label : Option String
  color_attachments : List (Option ColorAttachment)
  depth_stencil_attachment : Option RenderPassDepthStencilAttachment
  timestamp_writes : Option Unit
  occlusion_query_set : Option Unit
  deriving DecidableEq, Repr

/-- The query item (`ViewData`) handed to `MainOpaquePass3dNode::run`:
`Option Unit` fields model the presence of the marker components
`DepthPrepass`, `NormalPrepass`, `MotionVectorPrepass`, `DeferredPrepass`. -/
structure ViewData where
  camera : ExtractedCamera
  opaque_phase : RenderPhase
  alpha_mask_phase : RenderPhase
  camera_3d : Camera3d
  target : ViewTarget
  depth : ViewDepthTexture
  depth_prepass : Option Unit
  normal_prepass : Option Unit
  motion_vector_prepass : Option Unit
  deferred_prepass : Option Unit
  skybox_pipeline : Option SkyboxPipelineId
  skybox_bind_group : Option SkyboxBindGroup
  view_uniform_offset : ViewUniformOffset

/-- The color load-op resolution, lines 65-74 of the source:
if no deferred prepass ran, dispatch on `camera_3d.clear_color`
(Default clears to the `ClearColor` resource, Custom clears to the given
color, None loads); if the deferred prepass ran, load. -/
def resolveColorLoad (camera_3d : Camera3d) (deferred_prepass : Option Unit)
    (clear_color_resource : Color) : LoadOp Color :=
  if deferred_prepass.isNone then
    match camera_3d.clear_color with
    | ClearColorConfig.default => LoadOp.clear clear_color_resource
    | ClearColorConfig.custom color => LoadOp.clear color
    | ClearColorConfig.none => LoadOp.load
  else
    LoadOp.load

/-- The depth load-op resolution, lines 93-106 of the source: if any of the
four prepass marker components is present, `Camera3dDepthLoadOp::Load`,
else the camera's `depth_load_op`; the result is converted with `.into()`. -/
def resolveDepthLoad (camera_3d : Camera3d)
    (depth_prepass normal_prepass motion_vector_prepass deferred_prepass :
      Option Unit) : LoadOp DepthValue :=
  (if depth_prepass.isSome || normal_prepass.isSome ||
      motion_vector_prepass.isSome || deferred_prepass.isSome then
    Camera3dDepthLoadOp.load
  else
    camera_3d.depth_load_op).into

/-- The pair of resolutions made by the node for one invocation; the two
components are computed independently from the camera configuration, the
prepass marker components and the `ClearColor` resource. -/
def resolveLoadOps (camera_3d : Camera3d)
    (depth_prepass normal_prepass motion_vector_prepass deferred_prepass :
      Option Unit)
    (clear_color_resource : Color) : LoadOp Color × LoadOp DepthValue :=
  (resolveColorLoad camera_3d deferred_prepass clear_color_resource,
   resolveDepthLoad camera_3d depth_prepass normal_prepass
     motion_vector_prepass deferred_prepass)

/-- Which typed phase a `RenderPhase::render` call belongs to. -/
inductive PhaseKind where
  | opaque3d
  | alphaMask3d
  deriving DecidableEq, Repr

/-- One command recorded by the node during its single invocation, in program
order: opening the tracked render pass, setting the camera viewport,
replaying a whole `RenderPhase`, and the three skybox commands. -/
inductive RenderCommand where
  | beginRenderPass (desc : RenderPassDescriptor)
  | setCameraViewport (viewport : Viewport)
  | renderPhase (kind : PhaseKind) (items : List DrawItem)
  | setRenderPipeline (pipeline : RenderPipeline)
  | setBindGroup (index : Nat) (bind_group : BindGroup) (offsets : List Nat)
  | draw (vertex_start vertex_end instance_start instance_end : Nat)
  deriving DecidableEq, Repr

/-- `NodeRunError`; `MainOpaquePass3dNode::run` itself never constructs one. -/
inductive NodeRunError where
  | drawError (code : Nat)
  deriving DecidableEq, Repr

/-- The `RenderPassDescriptor` built at lines 82-113 of the source. -/
def mainPassDescriptor (v : ViewData) (world : World) : RenderPassDescriptor :=
  { label := some "main_opaque_pass_3d"
    color_attachments :=
      [some (v.target.get_color_attachment
        { load := resolveColorLoad v.camera_3d v.deferred_prepass
            world.clear_color.color
          store := StoreOp.store })]
    depth_stencil_attachment := some
      { view := v.depth.view
        depth_ops := some
          { load := resolveDepthLoad v.camera_3d v.depth_prepass
              v.normal_prepass v.motion_vector_prepass v.deferred_prepass
            store := StoreOp.store }
        stencil_ops := none }
    timestamp_writes := none
    occlusion_query_set := none }

/-- Lines 115-117: the camera viewport is set right after the pass opens,
when present. -/
def viewportCommands (v : ViewData) : List RenderCommand :=
  match v.camera.viewport with
  | some viewport => [RenderCommand.setCameraViewport viewport]
  | none => []

/-- Lines 124-127: the alpha-mask phase is rendered only when its item list
is non-empty. -/
def alphaMaskCommands (v : ViewData) : List RenderCommand :=
  if v.alpha_mask_phase.items.isEmpty then []
  else
    [RenderCommand.renderPhase PhaseKind.alphaMask3d v.alpha_mask_phase.items]

/-- Lines 129-139: the skybox is drawn only when both `SkyboxPipelineId` and
`SkyboxBindGroup` are present and the pipeline cache lookup succeeds; then the
pipeline is bound, the bind group is bound at the view uniform offset, and a
3-vertex 1-instance non-indexed draw is issued. -/
def skyboxCommands (v : ViewData) (world : World) : List RenderCommand :=
  match v.skybox_pipeline, v.skybox_bind_group with
  | some skybox_pipeline, some skybox_bind_group =>
    match world.pipeline_cache.get_render_pipeline skybox_pipeline.id with
    | some pipeline =>
      [RenderCommand.setRenderPipeline pipeline,
       RenderCommand.setBindGroup 0 skybox_bind_group.bind_group
         [v.view_uniform_offset.offset],
       RenderCommand.draw 0 3 0 1]
    | none => []
  | _, _ => []

/-- `MainOpaquePass3dNode::run`, lines 44-142: the recorded command trace in
program order, paired with the returned `Result<(), NodeRunError>`. -/
def run (v : ViewData) (world : World) :
    List RenderCommand × Except NodeRunError Unit :=
  (RenderCommand.beginRenderPass (mainPassDescriptor v world) ::
      (viewportCommands v ++
       [RenderCommand.renderPhase PhaseKind.opaque3d v.opaque_phase.items] ++
       alphaMaskCommands v ++
       skyboxCommands v world),
   Except.ok ())

/-- Tests whether a command is the opening of a render pass. -/
def isBeginRenderPass : RenderCommand → Bool
  | RenderCommand.beginRenderPass _ => true
  | _ => false

/-- Tests whether a command sets the camera viewport. -/
def isSetCameraViewport : RenderCommand → Bool
  | RenderCommand.setCameraViewport _ => true
  | _ => false

/-- Tests whether a command is a `RenderPhase::render` call of a given kind. -/
def isRenderPhaseOf (kind : PhaseKind) : RenderCommand → Bool
  | RenderCommand.renderPhase k _ => decide (k = kind)
  | _ => false

/-- Tests whether a command is a direct draw call (only the skybox issues
one; phase items are replayed through `renderPhase`). -/
def isDraw : RenderCommand → Bool
  | RenderCommand.draw _ _ _ _ => true
  | _ => false

/-- The skybox gating condition of lines 130-134: pipeline handle present,
bind group present, and the readiness lookup returns a compiled pipeline. -/
def skyboxDrawReady (v : ViewData) (world : World) : Bool :=
  match v.skybox_pipeline, v.skybox_bind_group with
  | some skybox_pipeline, some _ =>
    (world.pipeline_cache.get_render_pipeline skybox_pipeline.id).isSome
  | _, _ => false

/-- Opaque stand-in for an error raised by the external draw mechanism when a
draw item's bound pipeline or resource is invalid. -/
abbrev DrawError := Nat

/-- Modelled from the spec: the internals of `RenderPhase::render` — the
external draw mechanism with its per-item error channel — are not under
`src/` (only their caller is), so the external phase replay is modelled here
with an explicit draw capability `draw_item`.  Per the spec, the replay walks
the pre-sorted item list in stored order, does not catch or suppress a
per-item failure and does not skip-and-continue past it: the first failing
item terminates the replay.  The result is the list of items actually
attempted paired with the outcome.  The node itself (lines 121-141, which
are under `src/`) invokes the replay without capturing any result: see `run`,
whose second component is `Ok` unconditionally. -/
def renderPhaseFallible (draw_item : DrawItem → Except DrawError Unit) :
    List DrawItem → List DrawItem × Except DrawError Unit
  | [] => ([], Except.ok ())
  | i :: rest =>
    match draw_item i with
    | Except.ok _ =>
      let r := renderPhaseFallible draw_item rest
      (i :: r.1, r.2)
    | Except.error e => ([i], Except.error e)

/-- A concrete view used to evaluate the theorems at a specific input: a
camera with a custom clear color, one opaque item, no alpha-mask items, all
prepass markers absent, and a fully configured skybox. -/
def sampleView : ViewData :=
  { camera := { viewport := some 11 }
    opaque_phase := { items := [100] }
    alpha_mask_phase := { items := [] }
    camera_3d :=
      { clear_color := ClearColorConfig.custom 7
        depth_load_op := Camera3dDepthLoadOp.clear 0 }
    target := { view := 1 }
    depth := { view := 2 }
    depth_prepass := none
    normal_prepass := none
    motion_vector_prepass := none
    deferred_prepass := none
    skybox_pipeline := some { id := 7 }
    skybox_bind_group := some { bind_group := 13 }
    view_uniform_offset := { offset := 256 } }

/-- A concrete world whose pipeline cache has compiled exactly the pipeline
with cached id 7. -/
def sampleWorld : World :=
  { clear_color := { color := 3 }
    pipeline_cache :=
      { get_render_pipeline := fun i =>
          if i = 7 then some { id := 42 } else none } }

/-- A concrete external draw capability that fails on item 5 with error code
99 and succeeds on every other item. -/
def sampleDrawItem (i : DrawItem) : Except DrawError Unit :=
  if i = 5 then Except.error 99 else Except.ok ()

/-- A concrete view whose opaque phase contains the item 5 that
`sampleDrawItem` rejects, with no viewport and no skybox configured. -/
def failView : ViewData :=
  { camera := { viewport := none }
    opaque_phase := { items := [1, 2, 5, 3] }
    alpha_mask_phase := { items := [] }
    camera_3d :=
      { clear_color := ClearColorConfig.default
        depth_load_op := Camera3dDepthLoadOp.clear 0 }
    target := { view := 1 }
    depth := { view := 2 }
    depth_prepass := none
    normal_prepass := none
    motion_vector_prepass := none
    deferred_prepass := none
    skybox_pipeline := none
    skybox_bind_group := none
    view_uniform_offset := { offset := 0 } }

/-! ## Helper lemmas -/

lemma viewportCommands_countP (v : ViewData) (p : RenderCommand → Bool)
    (h : ∀ vp, p (RenderCommand.setCameraViewport vp) = false) :
    (viewportCommands v).countP p = 0 := by
  unfold viewportCommands
  rcases v.camera.viewport with _ | vp <;>
    simp [List.countP_cons, List.countP_nil, h]

lemma skyboxCommands_countP (v : ViewData) (w : World)
    (p : RenderCommand → Bool)
    (h1 : ∀ q, p (RenderCommand.setRenderPipeline q) = false)
    (h2 : ∀ i bg o, p (RenderCommand.setBindGroup i bg o) = false)
    (h3 : ∀ a b c d, p (RenderCommand.draw a b c d) = false) :
    (skyboxCommands v w).countP p = 0 := by
  unfold skyboxCommands
  rcases v.skybox_pipeline with _ | sp <;>
    rcases v.skybox_bind_group with _ | sbg <;>
      simp [List.countP_cons, List.countP_nil, h1, h2, h3]
  rcases w.pipeline_cache.get_render_pipeline sp.id with _ | q <;>
    simp [List.countP_cons, List.countP_nil, h1, h2, h3]

lemma alphaMaskCommands_countP (v : ViewData) (p : RenderCommand → Bool)
    (h : ∀ k items, p (RenderCommand.renderPhase k items) = false) :
    (alphaMaskCommands v).countP p = 0 := by
  unfold alphaMaskCommands
  by_cases he : v.alpha_mask_phase.items.isEmpty <;>
    simp [he, List.countP_cons, List.countP_nil, h]

lemma alphaMaskCommands_countP_alpha (v : ViewData) :
    (alphaMaskCommands v).countP (isRenderPhaseOf PhaseKind.alphaMask3d) =
      if v.alpha_mask_phase.items.isEmpty then 0 else 1 := by
  unfold alphaMaskCommands
  by_cases he : v.alpha_mask_phase.items.isEmpty <;>
    simp [he, List.countP_cons, List.countP_nil, isRenderPhaseOf]

lemma skyboxCommands_countP_draw (v : ViewData) (w : World) :
    (skyboxCommands v w).countP isDraw = cond (skyboxDrawReady v w) 1 0 := by
  unfold skyboxCommands skyboxDrawReady
  rcases v.skybox_pipeline with _ | sp <;>
    rcases v.skybox_bind_group with _ | sbg <;>
      simp [List.countP_cons, List.countP_nil, isDraw]
  rcases w.pipeline_cache.get_render_pipeline sp.id with _ | q <;>
    simp [List.countP_cons, List.countP_nil, isDraw]

/-! ## Claim theorems -/

/-- C1: if any prepass flag is present the resolved depth load op is Load,
regardless of the camera's configured depth load policy; if all four are
absent it is the camera's policy passed through unchanged (the `.into()`
conversion maps each variant to the same-shaped variant). -/
theorem depth_load_op_resolution (camera_3d : Camera3d)
    (dp np mvp dfp : Option Unit) :
    (dp.isSome = true ∨ np.isSome = true ∨ mvp.isSome = true ∨
        dfp.isSome = true →
      resolveDepthLoad camera_3d dp np mvp dfp = LoadOp.load) ∧
    (dp = none → np = none → mvp = none → dfp = none →
      resolveDepthLoad camera_3d dp np mvp dfp =
        camera_3d.depth_load_op.into) ∧
    (∀ value,
      Camera3dDepthLoadOp.into (Camera3dDepthLoadOp.clear value) =
        LoadOp.clear value) ∧
    Camera3dDepthLoadOp.into Camera3dDepthLoadOp.load = LoadOp.load := by
  refine ⟨?_, ?_, fun _ => rfl, rfl⟩
  · intro h
    have hc : (dp.isSome || np.isSome || mvp.isSome || dfp.isSome) = true := by
      rcases h with h | h | h | h <;> simp [h]
    simp [resolveDepthLoad, hc, Camera3dDepthLoadOp.into]
  · intro h1 h2 h3 h4
    simp [resolveDepthLoad, h1, h2, h3, h4]

/-- Witness for C1 at concrete inputs: a depth prepass forces Load even for a
clearing camera policy; with no prepass the clearing policy passes through. -/
theorem depth_load_op_resolution_witness :
    resolveDepthLoad
        { clear_color := ClearColorConfig.default
          depth_load_op := Camera3dDepthLoadOp.clear 0 }
        (some ()) none none none = LoadOp.load ∧
    resolveDepthLoad
        { clear_color := ClearColorConfig.default
          depth_load_op := Camera3dDepthLoadOp.clear 5 }
        none none none none = LoadOp.clear 5 :=
  ⟨(depth_load_op_resolution _ (some ()) none none none).1 (Or.inl rfl),
   (depth_load_op_resolution
      { clear_color := ClearColorConfig.default
        depth_load_op := Camera3dDepthLoadOp.clear 5 }
      none none none none).2.1 rfl rfl rfl rfl⟩

/-- C2: a present deferred prepass forces the color load op to Load
regardless of the clear color configuration; otherwise Default clears to the
process-wide `ClearColor` resource, Custom clears to the given color and None
loads. -/
theorem color_load_op_resolution (camera_3d : Camera3d) (dfp : Option Unit)
    (clear_color_resource : Color) :
    (dfp.isSome = true →
      resolveColorLoad camera_3d dfp clear_color_resource = LoadOp.load) ∧
    (dfp = none →
      (camera_3d.clear_color = ClearColorConfig.default →
        resolveColorLoad camera_3d dfp clear_color_resource =
          LoadOp.clear clear_color_resource) ∧
      (∀ c, camera_3d.clear_color = ClearColorConfig.custom c →
        resolveColorLoad camera_3d dfp clear_color_resource =
          LoadOp.clear c) ∧
      (camera_3d.clear_color = ClearColorConfig.none →
        resolveColorLoad camera_3d dfp clear_color_resource =
          LoadOp.load)) := by
  constructor
  · intro h
    rcases dfp with _ | u
    · simp at h
    · simp [resolveColorLoad]
  · rintro rfl
    refine ⟨fun h => ?_, fun c h => ?_, fun h => ?_⟩ <;>
      simp [resolveColorLoad, h]

/-- Witness for C2 at concrete inputs: with a deferred prepass a custom clear
color is ignored; without it each of the three configurations resolves as
stated. -/
theorem color_load_op_resolution_witness :
    resolveColorLoad
        { clear_color := ClearColorConfig.custom 7
          depth_load_op := Camera3dDepthLoadOp.load }
        (some ()) 3 = LoadOp.load ∧
    resolveColorLoad
        { clear_color := ClearColorConfig.default
          depth_load_op := Camera3dDepthLoadOp.load }
        none 3 = LoadOp.clear 3 ∧
    resolveColorLoad
        { clear_color := ClearColorConfig.custom 7
          depth_load_op := Camera3dDepthLoadOp.load }
        none 3 = LoadOp.clear 7 ∧
    resolveColorLoad
        { clear_color := ClearColorConfig.none
          depth_load_op := Camera3dDepthLoadOp.load }
        none 3 = LoadOp.load :=
  ⟨(color_load_op_resolution _ (some ()) 3).1 rfl,
   ((color_load_op_resolution
      { clear_color := ClearColorConfig.default
        depth_load_op := Camera3dDepthLoadOp.load } none 3).2 rfl).1 rfl,
   ((color_load_op_resolution
      { clear_color := ClearColorConfig.custom 7
        depth_load_op := Camera3dDepthLoadOp.load } none 3).2 rfl).2.1 7 rfl,
   ((color_load_op_resolution
      { clear_color := ClearColorConfig.none
        depth_load_op := Camera3dDepthLoadOp.load } none 3).2 rfl).2.2 rfl⟩

/-- C8: the load-op resolutions are deterministic pure functions; the depth
resolution does not depend on the clear color configuration or the
`ClearColor` resource, the color resolution does not depend on the depth,
normal or motion-vector prepass flags or the depth load policy, and each
component is computed independently of the other. -/
theorem load_op_resolution_pure (a b : Camera3d)
    (dp np mvp dfp dp' np' mvp' dfp' : Option Unit) (ca cb : Color) :
    (a = b → dp = dp' → np = np' → mvp = mvp' → dfp = dfp' → ca = cb →
      resolveLoadOps a dp np mvp dfp ca =
        resolveLoadOps b dp' np' mvp' dfp' cb) ∧
    (a.depth_load_op = b.depth_load_op →
      dp = dp' → np = np' → mvp = mvp' → dfp = dfp' →
      (resolveLoadOps a dp np mvp dfp ca).2 =
        (resolveLoadOps b dp' np' mvp' dfp' cb).2) ∧
    (a.clear_color = b.clear_color → dfp = dfp' → ca = cb →
      (resolveLoadOps a dp np mvp dfp ca).1 =
        (resolveLoadOps b dp' np' mvp' dfp' cb).1) := by
  refine ⟨?_, ?_, ?_⟩
  · rintro rfl rfl rfl rfl rfl rfl
    rfl
  · rintro h rfl rfl rfl rfl
    simp [resolveLoadOps, resolveDepthLoad, h]
  · rintro h rfl rfl
    simp [resolveLoadOps, resolveColorLoad, h]

/-- Witness for C8 at concrete inputs: changing the clear color configuration
and the `ClearColor` resource leaves the depth component unchanged; changing
the depth policy and the depth/normal/motion-vector flags leaves the color
component unchanged. -/
theorem load_op_resolution_pure_witness :
    resolveLoadOps
        { clear_color := ClearColorConfig.custom 7
          depth_load_op := Camera3dDepthLoadOp.load }
        none none none none 3 =
      resolveLoadOps
        { clear_color := ClearColorConfig.custom 7
          depth_load_op := Camera3dDepthLoadOp.load }
        none none none none 3 ∧
    (resolveLoadOps
        { clear_color := ClearColorConfig.custom 7
          depth_load_op := Camera3dDepthLoadOp.load }
        none none none none 3).2 =
      (resolveLoadOps
        { clear_color := ClearColorConfig.none
          depth_load_op := Camera3dDepthLoadOp.load }
        none none none none 9).2 ∧
    (resolveLoadOps
        { clear_color := ClearColorConfig.custom 7
          depth_load_op := Camera3dDepthLoadOp.load }
        (some ()) none (some ()) none 3).1 =
      (resolveLoadOps
        { clear_color := ClearColorConfig.custom 7
          depth_load_op := Camera3dDepthLoadOp.clear 0 }
        none (some ()) none none 3).1 :=
  ⟨(load_op_resolution_pure
      { clear_color := ClearColorConfig.custom 7
        depth_load_op := Camera3dDepthLoadOp.load }
      { clear_color := ClearColorConfig.custom 7
        depth_load_op := Camera3dDepthLoadOp.load }
      none none none none none none none none 3 3).1
      rfl rfl rfl rfl rfl rfl,
   (load_op_resolution_pure
      { clear_color := ClearColorConfig.custom 7
        depth_load_op := Camera3dDepthLoadOp.load }
      { clear_color := ClearColorConfig.none
        depth_load_op := Camera3dDepthLoadOp.load }
      none none none none none none none none 3 9).2.1
      rfl rfl rfl rfl rfl,
   (load_op_resolution_pure
      { clear_color := ClearColorConfig.custom 7
        depth_load_op := Camera3dDepthLoadOp.load }
      { clear_color := ClearColorConfig.custom 7
        depth_load_op := Camera3dDepthLoadOp.clear 0 }
      (some ()) none (some ()) none none (some ()) none none 3 3).2.2
      rfl rfl rfl⟩

/-- C3: every invocation replays the opaque phase exactly once, even when it
has zero items, and replays the alpha-mask phase exactly when its item list
is non-empty. -/
theorem phase_execution (v : ViewData) (w : World) :
    (run v w).1.countP (isRenderPhaseOf PhaseKind.opaque3d) = 1 ∧
    (run v w).1.countP (isRenderPhaseOf PhaseKind.alphaMask3d) =
      if v.alpha_mask_phase.items.isEmpty then 0 else 1 := by
  have hvo := viewportCommands_countP v (isRenderPhaseOf PhaseKind.opaque3d)
    (fun _ => rfl)
  have hva := viewportCommands_countP v (isRenderPhaseOf PhaseKind.alphaMask3d)
    (fun _ => rfl)
  have hso := skyboxCommands_countP v w (isRenderPhaseOf PhaseKind.opaque3d)
    (fun _ => rfl) (fun _ _ _ => rfl) (fun _ _ _ _ => rfl)
  have hsa := skyboxCommands_countP v w (isRenderPhaseOf PhaseKind.alphaMask3d)
    (fun _ => rfl) (fun _ _ _ => rfl) (fun _ _ _ _ => rfl)
  have hao : (alphaMaskCommands v).countP
      (isRenderPhaseOf PhaseKind.opaque3d) = 0 := by
    unfold alphaMaskCommands
    by_cases he : v.alpha_mask_phase.items.isEmpty <;>
      simp [he, List.countP_cons, List.countP_nil, isRenderPhaseOf]
  have haa := alphaMaskCommands_countP_alpha v
  constructor
  · simp [run, List.countP_append, List.countP_cons, hvo, hso, hao,
      isRenderPhaseOf]
  · simp [run, List.countP_append, List.countP_cons, hva, hsa, haa,
      isRenderPhaseOf]

/-- C4: a skybox draw call is recorded exactly when the pipeline handle and
the bind group are both present and the readiness lookup returns a compiled
pipeline; in every other combination zero draw calls are recorded, and the
node returns success in all cases. -/
theorem skybox_draw_gating (v : ViewData) (w : World) :
    (run v w).1.countP isDraw = cond (skyboxDrawReady v w) 1 0 ∧
    (run v w).2 = Except.ok () := by
  refine ⟨?_, rfl⟩
  have hv := viewportCommands_countP v isDraw (fun _ => rfl)
  have ha := alphaMaskCommands_countP v isDraw (fun _ _ => rfl)
  have hs := skyboxCommands_countP_draw v w
  simp [run, List.countP_append, List.countP_cons, hv, ha, hs, isDraw]

/-- C7: the node's run function returns Ok on every input; no code path in
the node constructs a `NodeRunError`. -/
theorem run_always_ok (v : ViewData) (w : World) :
    (run v w).2 = Except.ok () :=
  rfl

/-- C5: when the skybox draw is issued it is recorded strictly after the
opaque and alpha-mask phase replays, inside the same render pass, as a
pipeline bind, a bind group bind at the view's dynamic uniform offset, and a
single non-indexed draw of vertices 0..3 and instances 0..1. -/
theorem skybox_draw_ordering (v : ViewData) (w : World)
    (sp : SkyboxPipelineId) (sbg : SkyboxBindGroup) (p : RenderPipeline)
    (h1 : v.skybox_pipeline = some sp)
    (h2 : v.skybox_bind_group = some sbg)
    (h3 : w.pipeline_cache.get_render_pipeline sp.id = some p) :
    ∃ pre,
      (run v w).1 =
        RenderCommand.beginRenderPass (mainPassDescriptor v w) ::
          (pre ++
            [RenderCommand.setRenderPipeline p,
             RenderCommand.setBindGroup 0 sbg.bind_group
               [v.view_uniform_offset.offset],
             RenderCommand.draw 0 3 0 1]) ∧
      RenderCommand.renderPhase PhaseKind.opaque3d v.opaque_phase.items ∈
        pre ∧
      (v.alpha_mask_phase.items.isEmpty = false →
        RenderCommand.renderPhase PhaseKind.alphaMask3d
          v.alpha_mask_phase.items ∈ pre) ∧
      pre.countP isDraw = 0 := by
  refine ⟨viewportCommands v ++
    [RenderCommand.renderPhase PhaseKind.opaque3d v.opaque_phase.items] ++
    alphaMaskCommands v, ?_, ?_, ?_, ?_⟩
  · simp [run, skyboxCommands, h1, h2, h3, List.append_assoc]
  · simp
  · intro he
    simp [alphaMaskCommands, he]
  · have hv := viewportCommands_countP v isDraw (fun _ => rfl)
    have ha := alphaMaskCommands_countP v isDraw (fun _ _ => rfl)
    simp [List.countP_append, List.countP_cons, hv, ha, isDraw]

/-- Witness for C5 at a concrete view and world with a present and compiled
skybox pipeline. -/
theorem skybox_draw_ordering_witness :
    ∃ pre,
      (run sampleView sampleWorld).1 =
        RenderCommand.beginRenderPass
            (mainPassDescriptor sampleView sampleWorld) ::
          (pre ++
            [RenderCommand.setRenderPipeline { id := 42 },
             RenderCommand.setBindGroup 0 13 [256],
             RenderCommand.draw 0 3 0 1]) ∧
      RenderCommand.renderPhase PhaseKind.opaque3d [100] ∈ pre ∧
      (([] : List DrawItem).isEmpty = false →
        RenderCommand.renderPhase PhaseKind.alphaMask3d [] ∈ pre) ∧
      pre.countP isDraw = 0 :=
  skybox_draw_ordering sampleView sampleWorld { id := 7 } { bind_group := 13 }
    { id := 42 } rfl rfl rfl

/-- C9: every invocation opens exactly one render pass, whose descriptor has
one color attachment with store policy Store, a depth attachment with store
policy Store and stencil ops absent, and no timestamp or occlusion-query
instrumentation. -/
theorem render_pass_configuration (v : ViewData) (w : World) :
    (run v w).1.countP isBeginRenderPass = 1 ∧
    ∃ d, (run v w).1.head? = some (RenderCommand.beginRenderPass d) ∧
      (∃ att, d.color_attachments = [some att] ∧
        att.ops.store = StoreOp.store) ∧
      (∃ ds, d.depth_stencil_attachment = some ds ∧
        (∃ dops, ds.depth_ops = some dops ∧ dops.store = StoreOp.store) ∧
        ds.stencil_ops = none) ∧
      d.timestamp_writes = none ∧
      d.occlusion_query_set = none := by
  constructor
  · have hv := viewportCommands_countP v isBeginRenderPass (fun _ => rfl)
    have ha := alphaMaskCommands_countP v isBeginRenderPass (fun _ _ => rfl)
    have hs := skyboxCommands_countP v w isBeginRenderPass (fun _ => rfl)
      (fun _ _ _ => rfl) (fun _ _ _ _ => rfl)
    simp [run, List.countP_append, List.countP_cons, hv, ha, hs,
      isBeginRenderPass]
  · exact ⟨mainPassDescriptor v w, rfl,
      ⟨_, rfl, rfl⟩, ⟨_, rfl, ⟨_, rfl, rfl⟩, rfl⟩, rfl, rfl⟩

/-- C10: when the camera carries a viewport it is applied immediately after
the pass opens, before every phase replay and draw call; when it is absent no
viewport command is recorded at all. -/
theorem viewport_applied_before_draws (v : ViewData) (w : World) :
    ∃ rest,
      ((v.camera.viewport = none →
          (run v w).1 =
            RenderCommand.beginRenderPass (mainPassDescriptor v w) :: rest ∧
          (run v w).1.countP isSetCameraViewport = 0) ∧
       (∀ vp, v.camera.viewport = some vp →
          (run v w).1 =
            RenderCommand.beginRenderPass (mainPassDescriptor v w) ::
              RenderCommand.setCameraViewport vp :: rest)) ∧
      rest.countP isSetCameraViewport = 0 ∧
      (∀ k items, RenderCommand.renderPhase k items ∈ (run v w).1 →
        RenderCommand.renderPhase k items ∈ rest) ∧
      (∀ a b i j, RenderCommand.draw a b i j ∈ (run v w).1 →
        RenderCommand.draw a b i j ∈ rest) := by
  have ha := alphaMaskCommands_countP v isSetCameraViewport (fun _ _ => rfl)
  have hs := skyboxCommands_countP v w isSetCameraViewport (fun _ => rfl)
    (fun _ _ _ => rfl) (fun _ _ _ _ => rfl)
  refine ⟨[RenderCommand.renderPhase PhaseKind.opaque3d
      v.opaque_phase.items] ++
    alphaMaskCommands v ++ skyboxCommands v w, ⟨?_, ?_⟩, ?_, ?_, ?_⟩
  · intro h
    constructor
    · simp [run, viewportCommands, h, List.append_assoc]
    · simp [run, viewportCommands, h, List.countP_append, List.countP_cons,
        ha, hs, isSetCameraViewport]
  · intro vp h
    simp [run, viewportCommands, h, List.append_assoc]
  · simp [List.countP_append, List.countP_cons, ha, hs, isSetCameraViewport]
  · intro k items hm
    rcases hvp : v.camera.viewport with _ | vp <;>
      simp [run, viewportCommands, hvp, List.mem_append,
        List.mem_cons] at hm ⊢ <;>
      tauto
  · intro a b i j hm
    rcases hvp : v.camera.viewport with _ | vp <;>
      simp [run, viewportCommands, hvp, List.mem_append,
        List.mem_cons] at hm ⊢ <;>
      tauto

/-- The phase replay stops at the first failing item and reports its error. -/
lemma renderPhaseFallible_fails (draw_item : DrawItem → Except DrawError Unit)
    (pre post : List DrawItem) (bad : DrawItem) (e : DrawError)
    (hpre : ∀ i ∈ pre, draw_item i = Except.ok ())
    (hbad : draw_item bad = Except.error e) :
    renderPhaseFallible draw_item (pre ++ bad :: post) =
      (pre ++ [bad], Except.error e) := by
  induction pre with
  | nil => simp [renderPhaseFallible, hbad]
  | cons a t ih =>
    have ha : draw_item a = Except.ok () := hpre a (List.mem_cons_self a t)
    have ht := ih (fun i hi => hpre i (List.mem_cons_of_mem a hi))
    simp [renderPhaseFallible, ha, ht]

/-- C6 counterexample: the node does not propagate a draw-item failure as a
run error it returns.  At the concrete view `failView`, whose opaque phase
contains the item 5 that the concrete draw capability `sampleDrawItem`
rejects with error 99, the node's run function still returns Ok: lines
121-141 of the source invoke the phase renders without capturing any result
and return `Ok(())` unconditionally, so no propagation path into the node's
result exists. -/
theorem draw_item_failure_not_in_node_result :
    sampleDrawItem 5 = Except.error 99 ∧
    5 ∈ failView.opaque_phase.items ∧
    (run failView sampleWorld).2 = Except.ok () :=
  ⟨rfl, by simp [failView], rfl⟩

/-- C6 as amended: a failing draw item terminates the external phase replay
at that item — the error is terminal for that phase, not retried, not
swallowed, and subsequent items are not attempted (spec-modelled, since
`RenderPhase::render` is not under `src/`) — but the node does not capture
this outcome: it hands the full item list to the replay and its own run
function returns Ok regardless. -/
theorem draw_item_failure_handling
    (draw_item : DrawItem → Except DrawError Unit)
    (pre post : List DrawItem) (bad : DrawItem) (e : DrawError)
    (v : ViewData) (w : World)
    (hpre : ∀ i ∈ pre, draw_item i = Except.ok ())
    (hbad : draw_item bad = Except.error e)
    (h_items : v.opaque_phase.items = pre ++ bad :: post) :
    renderPhaseFallible draw_item (pre ++ bad :: post) =
      (pre ++ [bad], Except.error e) ∧
    RenderCommand.renderPhase PhaseKind.opaque3d (pre ++ bad :: post) ∈
      (run v w).1 ∧
    (run v w).2 = Except.ok () := by
  refine ⟨renderPhaseFallible_fails draw_item pre post bad e hpre hbad,
    ?_, rfl⟩
  rw [← h_items]
  simp [run, List.mem_append, List.mem_cons]

/-- Witness for C6 as amended, at the concrete draw capability that fails on
item 5 with error 99 and the concrete view whose opaque phase is
[1, 2, 5, 3]: the external replay attempts 1, 2, 5 and stops with the error,
the node records the whole list for replay, and the node's result is Ok. -/
theorem draw_item_failure_handling_witness :
    renderPhaseFallible sampleDrawItem [1, 2, 5, 3] =
      ([1, 2, 5], Except.error 99) ∧
    RenderCommand.renderPhase PhaseKind.opaque3d [1, 2, 5, 3] ∈
      (run failView sampleWorld).1 ∧
    (run failView sampleWorld).2 = Except.ok () :=
  draw_item_failure_handling sampleDrawItem [1, 2] [3] 5 99 failView
    sampleWorld
    (by intro i hi; simp at hi; rcases hi with rfl | rfl <;> rfl) rfl rfl
